import Mathlib

/-!
Shallow embedding of src/src/lib/util/kuser_unix.cpp (the KUser / KUserGroup /
KUserId / KGroupId user and group account wrapper).

The OS account database, process identifiers and environment are modelled by an
abstract `System` record: each C library call (getpwnam, getpwuid, getgrnam,
getgrgid, getuid, geteuid, qgetenv, and the sequential getpwent/getgrent
cursors) becomes a field of `System`.  The native types uid_t and gid_t are
unsigned 32-bit integers on the target platform; they are modelled as `Nat`
with the invalid sentinel uid_t(-1) = gid_t(-1) = 4294967295.  QString values
become `String` (the 8-bit / local-8-bit conversions are identity in the
model), QList becomes `List`, and the QVariant property map of KUser::Private
becomes a function from the property tag to `Option String`.
-/

namespace KUserModel

/-- uid_t(-1), the invalid user id sentinel (uid_t is 32-bit unsigned). -/
def UIDT_M1 : Nat := 4294967295

/-- gid_t(-1), the invalid group id sentinel (gid_t is 32-bit unsigned). -/
def GIDT_M1 : Nat := 4294967295

/-- 2^31: an unsigned 32-bit value maxCount has (int)maxCount < 0 iff UINT_HALF ≤ maxCount. -/
def UINT_HALF : Nat := 2147483648

/-- UINT_MAX = 2^32 - 1, the value of an unsigned int holding -1. -/
def UINT_MAX : Nat := 4294967295

/-- One record of the passwd database (struct passwd). -/
structure Passwd where
  pw_name : String
  pw_uid : Nat
  pw_gid : Nat
  pw_gecos : String
  pw_dir : String
  pw_shell : String
deriving DecidableEq

/-- One record of the group database (struct group); gr_mem is the
null-terminated member name array. -/
structure GroupRec where
  gr_name : String
  gr_gid : Nat
  gr_mem : List String
deriving DecidableEq

/-- The ambient OS state consumed by kuser_unix.cpp: the account and group
database lookups, the sequential enumeration orders (pwents for
setpwent/getpwent, grents for setgrent/getgrent), the real and effective uid of
the process, and the environment (qgetenv yields the empty string for an unset
variable, since QByteArray().constData() is an empty C string). -/
structure System where
  getpwnam : String → Option Passwd
  getpwuid : Nat → Option Passwd
  getgrnam : String → Option GroupRec
  getgrgid : Nat → Option GroupRec
  pwents : List Passwd
  grents : List GroupRec
  getuid : Nat
  geteuid : Nat
  env : String → String

/-- KUser::UserProperty (the four gecos-derived keys used by fillPasswd). -/
inductive UserProperty
  | FullName
  | RoomNumber
  | WorkPhone
  | HomePhone
deriving DecidableEq

/-- KUser::UIDMode. -/
inductive UIDMode
  | UseEffectiveUID
  | UseRealUserID
deriving DecidableEq

/-- The fields of KUser::Private. -/
structure KUserPrivate where
  uid : Nat
  gid : Nat
  loginName : String
  homeDir : String
  shell : String
  properties : UserProperty → Option String

/-- KUser::Private::Private(): uid = uid_t(-1), gid = gid_t(-1), strings
default to empty, the property map is empty. -/
def defaultUser : KUserPrivate :=
  { uid := UIDT_M1
    gid := GIDT_M1
    loginName := ""
    homeDir := ""
    shell := ""
    properties := fun _ => none }

/-- QString::split(QLatin1Char) over the character sequence, keeping empty
parts (the Qt default): an empty string yields one empty part. -/
def splitCommaChars : List Char → List (List Char)
  | [] => [[]]
  | c :: rest =>
    match splitCommaChars rest with
    | [] => [[]]
    | h :: t => if c = ',' then [] :: h :: t else (c :: h) :: t

/-- QString::split(QLatin1Char(',')) on a string. -/
def qsplitComma (s : String) : List String :=
  (splitCommaChars s.data).map String.mk

/-- The gecos list built by fillPasswd: QString::split on commas, then padded
with empty strings until it has at least 4 entries. -/
def gecosSegments (gecos : String) : List String :=
  let l := qsplitComma gecos
  l ++ List.replicate (4 - l.length) ""

/-- KUser::Private::fillPasswd: a null record leaves the private data
untouched; otherwise every field is copied from the record, the four
gecos-derived properties are set, and the home directory is taken from HOME
when the record uid equals both the real and the effective uid of the process
(falling back to pw_dir when the result is still empty). -/
def fillPasswd (sys : System) (d : KUserPrivate) : Option Passwd → KUserPrivate
  | none => d
  | some p =>
    let gecosList := gecosSegments p.pw_gecos
    let home1 :=
      if p.pw_uid = sys.getuid ∧ p.pw_uid = sys.geteuid then sys.env "HOME" else d.homeDir
    { uid := p.pw_uid
      gid := p.pw_gid
      loginName := p.pw_name
      homeDir := if home1 = "" then p.pw_dir else home1
      shell := p.pw_shell
      properties := fun pr =>
        some (match pr with
          | UserProperty.FullName => gecosList.getD 0 ""
          | UserProperty.RoomNumber => gecosList.getD 1 ""
          | UserProperty.WorkPhone => gecosList.getD 2 ""
          | UserProperty.HomePhone => gecosList.getD 3 "") }

/-- KUser::Private::Private(const char *name): a null pointer skips the lookup
(fillPasswd(0)), otherwise fillPasswd(getpwnam(name)). -/
def KUser.fromCharPtr (sys : System) : Option String → KUserPrivate
  | none => fillPasswd sys defaultUser none
  | some name => fillPasswd sys defaultUser (sys.getpwnam name)

/-- KUser::Private::Private(const passwd *p). -/
def KUser.fromPasswdPtr (sys : System) (p : Option Passwd) : KUserPrivate :=
  fillPasswd sys defaultUser p

/-- KUser::KUser(K_UID uid): Private(getpwuid(uid)). -/
def KUser.fromUid (sys : System) (u : Nat) : KUserPrivate :=
  KUser.fromPasswdPtr sys (sys.getpwuid u)

/-- KUser::KUser(const QString &name): the QString is never a null pointer. -/
def KUser.fromName (sys : System) (name : String) : KUserPrivate :=
  KUser.fromCharPtr sys (some name)

/-- KUser::KUser(UIDMode mode): effective mode with differing euid looks up
getpwuid(euid); otherwise the LOGNAME account, then the USER account, each
accepted only when its uid equals the real uid, then getpwuid(real uid). -/
def KUser.fromMode (sys : System) (mode : UIDMode) : KUserPrivate :=
  let u := sys.getuid
  if mode = UIDMode.UseEffectiveUID ∧ sys.geteuid ≠ u then
    KUser.fromPasswdPtr sys (sys.getpwuid sys.geteuid)
  else
    let d1 := KUser.fromCharPtr sys (some (sys.env "LOGNAME"))
    if d1.uid ≠ u then
      let d2 := KUser.fromCharPtr sys (some (sys.env "USER"))
      if d2.uid ≠ u then KUser.fromPasswdPtr sys (sys.getpwuid u) else d2
    else d1

/-- KUser::isValid(): d->uid != uid_t(-1). -/
def KUser.isValid (d : KUserPrivate) : Bool := d.uid != UIDT_M1

/-- KUser::operator==: isValid() && (d->uid == user.d->uid). -/
def KUser.operatorEq (d u : KUserPrivate) : Bool :=
  KUser.isValid d && (d.uid == u.uid)

/-- KUser::operator!=: !operator==(user). -/
def KUser.operatorNe (d u : KUserPrivate) : Bool :=
  !(KUser.operatorEq d u)

/-- KUser::loginName(). -/
def KUser.loginName (d : KUserPrivate) : String := d.loginName

/-- KUser::homeDir(). -/
def KUser.homeDir (d : KUserPrivate) : String := d.homeDir

/-- KUser::shell(). -/
def KUser.shell (d : KUserPrivate) : String := d.shell

/-- KUser::property(which): QMap::value gives the default (empty) variant when
the key is absent. -/
def KUser.userProperty (d : KUserPrivate) (which : UserProperty) : Option String :=
  d.properties which

/-- The fields of KUserGroup::Private. -/
structure KUserGroupPrivate where
  gid : Nat
  name : String
  users : List KUserPrivate

/-- KUserGroup::Private::Private(): gid = gid_t(-1), empty name, no users. -/
def defaultGroup : KUserGroupPrivate :=
  { gid := GIDT_M1
    name := ""
    users := [] }

/-- KUserGroup::Private::fillGroup: a null record leaves the private data
untouched; otherwise gid and name are copied and every member name of gr_mem is
resolved into a full KUser (KUser(*user), i.e. a getpwnam lookup per member),
appended in order. -/
def fillGroup (sys : System) (d : KUserGroupPrivate) : Option GroupRec → KUserGroupPrivate
  | none => d
  | some g =>
    { gid := g.gr_gid
      name := g.gr_name
      users := d.users ++ g.gr_mem.map (fun n => KUser.fromName sys n) }

/-- KUserGroup::KUserGroup(const ::group *g): Private(g). -/
def KUserGroup.fromGrPtr (sys : System) (g : Option GroupRec) : KUserGroupPrivate :=
  fillGroup sys defaultGroup g

/-- KUserGroup::KUserGroup(K_GID gid): Private(getgrgid(gid)). -/
def KUserGroup.fromGid (sys : System) (g : Nat) : KUserGroupPrivate :=
  KUserGroup.fromGrPtr sys (sys.getgrgid g)

/-- KUserGroup::isValid(): d->gid != gid_t(-1). -/
def KUserGroup.isValid (d : KUserGroupPrivate) : Bool := d.gid != GIDT_M1

/-- KUserGroup::name(). -/
def KUserGroup.name (d : KUserGroupPrivate) : String := d.name

/-- KUserGroup::users(uint maxCount): when (int)maxCount < 0 (that is,
2^31 ≤ maxCount as an unsigned value) the whole stored list is returned,
otherwise QList::mid(0, (int)maxCount), the first maxCount entries. -/
def KUserGroup.users (d : KUserGroupPrivate) (maxCount : Nat) : List KUserPrivate :=
  if UINT_HALF ≤ maxCount then d.users
  else d.users.take maxCount

/-- The loop of KUserGroup::userNames: for (uint i = 0; i < size && i < maxCount; ++i)
append users[i].loginName().  The fuel argument is the remaining iteration
budget maxCount - i; the list argument is the remaining suffix of d->users. -/
def userNamesGo : List KUserPrivate → Nat → List String
  | _, 0 => []
  | [], _ + 1 => []
  | u :: rest, n + 1 => KUser.loginName u :: userNamesGo rest n

/-- KUserGroup::userNames(uint maxCount). -/
def KUserGroup.userNames (d : KUserGroupPrivate) (maxCount : Nat) : List String :=
  userNamesGo d.users maxCount

/-- Calls on the sequential database cursor made during an enumeration:
openDb is setpwent/setgrent, readEnt is getpwent/getgrent, closeDb is
endpwent/endgrent. -/
inductive DbOp
  | openDb
  | readEnt
  | closeDb
deriving DecidableEq

/-- The shared loop shape of KUser::allUsers and KUserGroup::allGroups:
for (uint i = 0; i < maxCount && (p = getXXent()); ++i) result.append(f(p)).
Returns the accumulated results together with the cursor reads performed
(a failed read at the end of the database is still a readEnt call). -/
def enumLoop {α β : Type} (f : α → β) : Nat → List α → List β × List DbOp
  | 0, _ => ([], [])
  | _ + 1, [] => ([], [DbOp.readEnt])
  | n + 1, a :: rest =>
    let r := enumLoop f n rest
    (f a :: r.1, DbOp.readEnt :: r.2)

/-- KUser::allUsers(uint maxCount): setpwent; the read loop building
KUser(p) for each record; endpwent.  The second component is the cursor
call trace. -/
def KUser.allUsers (sys : System) (maxCount : Nat) : List KUserPrivate × List DbOp :=
  let r := enumLoop (fun p => KUser.fromPasswdPtr sys (some p)) maxCount sys.pwents
  (r.1, DbOp.openDb :: (r.2 ++ [DbOp.closeDb]))

/-- KUserGroup::allGroups(uint maxCount): setgrent; the read loop building
KUserGroup(g) for each record; endgrent. -/
def KUserGroup.allGroups (sys : System) (maxCount : Nat) : List KUserGroupPrivate × List DbOp :=
  let r := enumLoop (fun g => KUserGroup.fromGrPtr sys (some g)) maxCount sys.grents
  (r.1, DbOp.openDb :: (r.2 ++ [DbOp.closeDb]))

/-- The number of getXXent calls made by the enumeration loop on a database of
n records with bound m: m when the bound stops the loop first, n + 1 (the last
read returns null) otherwise. -/
def readCount (m n : Nat) : Nat := if m ≤ n then m else n + 1

/-- Modelled from the spec: the KUserId value type is declared in kuser.h,
which is not among the sources (only kuser_unix.cpp is).  Per the spec it is an
immutable wrapper of the native uid; the default constructor yields the invalid
sentinel; isValid is true iff the stored id differs from the sentinel. -/
structure KUserId where
  nativeId : Nat

/-- Modelled from the spec: KUserId(), the default-constructed invalid id. -/
def KUserId.invalid : KUserId := ⟨UIDT_M1⟩

/-- Modelled from the spec: KUserId::isValid(). -/
def KUserId.isValid (i : KUserId) : Bool := i.nativeId != UIDT_M1

/-- Modelled from the spec: the KGroupId value type of kuser.h, as KUserId. -/
structure KGroupId where
  nativeId : Nat

/-- Modelled from the spec: KGroupId(), the default-constructed invalid id. -/
def KGroupId.invalid : KGroupId := ⟨GIDT_M1⟩

/-- Modelled from the spec: KGroupId::isValid(). -/
def KGroupId.isValid (i : KGroupId) : Bool := i.nativeId != GIDT_M1

/-- KUserId::fromName (kuser_unix.cpp): getpwnam on the 8-bit name; on failure
emit a qWarning (the Bool component) and return the default KUserId; on success
return KUserId(p->pw_uid) with no warning. -/
def KUserId.fromName (sys : System) (name : String) : KUserId × Bool :=
  match sys.getpwnam name with
  | none => (KUserId.invalid, true)
  | some p => (⟨p.pw_uid⟩, false)

/-- KGroupId::fromName (kuser_unix.cpp): getgrnam on the 8-bit name; on failure
emit a qWarning and return the default KGroupId; on success KGroupId(g->gr_gid). -/
def KGroupId.fromName (sys : System) (name : String) : KGroupId × Bool :=
  match sys.getgrnam name with
  | none => (KGroupId.invalid, true)
  | some g => (⟨g.gr_gid⟩, false)

/-! Concrete sample data used by the witness theorems. -/

/-- A sample passwd record. -/
def pwAlice : Passwd :=
  { pw_name := "alice"
    pw_uid := 1000
    pw_gid := 1000
    pw_gecos := "Alice A,12,555,777,extra"
    pw_dir := "/home/alice"
    pw_shell := "/bin/sh" }

/-- A sample passwd record for the superuser. -/
def pwRoot : Passwd :=
  { pw_name := "root"
    pw_uid := 0
    pw_gid := 0
    pw_gecos := "root"
    pw_dir := "/root"
    pw_shell := "/bin/sh" }

/-- A sample group record with two members. -/
def grStaff : GroupRec :=
  { gr_name := "staff"
    gr_gid := 50
    gr_mem := ["alice", "root"] }

/-- A sample group record whose member array is empty. -/
def grEmpty : GroupRec :=
  { gr_name := "emptygrp"
    gr_gid := 60
    gr_mem := [] }

/-- A sample OS state: two accounts, two groups, real uid = effective uid =
1000, LOGNAME resolving to alice. -/
def sysDemo : System :=
  { getpwnam := fun n =>
      if n = "alice" then some pwAlice else if n = "root" then some pwRoot else none
    getpwuid := fun u =>
      if u = 1000 then some pwAlice else if u = 0 then some pwRoot else none
    getgrnam := fun n =>
      if n = "staff" then some grStaff else if n = "emptygrp" then some grEmpty else none
    getgrgid := fun g =>
      if g = 50 then some grStaff else if g = 60 then some grEmpty else none
    pwents := [pwRoot, pwAlice]
    grents := [grStaff, grEmpty]
    getuid := 1000
    geteuid := 1000
    env := fun v =>
      if v = "HOME" then "/env/home" else if v = "LOGNAME" then "alice" else "" }

/-- A user value with every field concrete (uid 5). -/
def uX : KUserPrivate :=
  { uid := 5
    gid := 6
    loginName := "x"
    homeDir := "/x"
    shell := "/bin/x"
    properties := fun _ => none }

/-- Like uX but with a different login name: only the uid takes part in
operator==. -/
def uY : KUserPrivate :=
  { uid := 5
    gid := 7
    loginName := "y"
    homeDir := "/y"
    shell := "/bin/y"
    properties := fun _ => none }

/-- A group value with two concrete members. -/
def gX : KUserGroupPrivate :=
  { gid := 7
    name := "gx"
    users := [uX, uY] }

/-! The claims. -/

/-- C1: KUser::operator== returns true iff both users are valid and their
stored uids are equal; no other field takes part in the comparison; and
KUser::operator!= is the exact negation of operator==. -/
theorem kuser_equality (u1 u2 : KUserPrivate) :
    (KUser.operatorEq u1 u2 = true ↔
      (KUser.isValid u1 = true ∧ KUser.isValid u2 = true ∧ u1.uid = u2.uid))
    ∧ KUser.operatorNe u1 u2 = !(KUser.operatorEq u1 u2)
    ∧ (∀ v1 v2 : KUserPrivate, u1.uid = v1.uid → u2.uid = v2.uid →
        KUser.operatorEq u1 u2 = KUser.operatorEq v1 v2) := by
  refine ⟨?_, rfl, ?_⟩
  · simp only [KUser.operatorEq, KUser.isValid, Bool.and_eq_true, bne_iff_ne, ne_eq,
      beq_iff_eq]
    constructor
    · rintro ⟨h1, h2⟩
      exact ⟨h1, h2 ▸ h1, h2⟩
    · rintro ⟨h1, -, h3⟩
      exact ⟨h1, h3⟩
  · intro v1 v2 h1 h2
    simp only [KUser.operatorEq, KUser.isValid, h1, h2]

/-- Witness for C1 at concrete users: uX and uY share a uid and differ in all
other fields, so the comparisons agree. -/
theorem kuser_equality_witness :
    KUser.operatorEq uX uX = KUser.operatorEq uY uY :=
  (kuser_equality uX uX).2.2 uY uY rfl rfl

/-- C2: for every user and group value, isValid() is true iff the stored
native id differs from the invalid sentinel; a group filled from an existing
record with an empty member array is valid with an empty user list, while a
group whose record does not exist (null record) is invalid. -/
theorem validity_invariant :
    (∀ d : KUserPrivate, KUser.isValid d = true ↔ d.uid ≠ UIDT_M1)
    ∧ (∀ d : KUserGroupPrivate, KUserGroup.isValid d = true ↔ d.gid ≠ GIDT_M1)
    ∧ (∀ (sys : System) (g : GroupRec), g.gr_gid ≠ GIDT_M1 → g.gr_mem = [] →
        KUserGroup.isValid (KUserGroup.fromGrPtr sys (some g)) = true
        ∧ (KUserGroup.fromGrPtr sys (some g)).users = []
        ∧ KUserGroup.isValid (KUserGroup.fromGrPtr sys none) = false) := by
  refine ⟨fun d => by simp [KUser.isValid], fun d => by simp [KUserGroup.isValid], ?_⟩
  intro sys g h1 h2
  refine ⟨?_, ?_, ?_⟩
  · simp [KUserGroup.fromGrPtr, fillGroup, KUserGroup.isValid, h1]
  · simp [KUserGroup.fromGrPtr, fillGroup, defaultGroup, h2]
  · simp [KUserGroup.fromGrPtr, fillGroup, defaultGroup, KUserGroup.isValid]

/-- Witness for C2 at the concrete empty group grEmpty of sysDemo. -/
theorem validity_invariant_witness :
    KUserGroup.isValid (KUserGroup.fromGrPtr sysDemo (some grEmpty)) = true
    ∧ (KUserGroup.fromGrPtr sysDemo (some grEmpty)).users = []
    ∧ KUserGroup.isValid (KUserGroup.fromGrPtr sysDemo none) = false :=
  validity_invariant.2.2 sysDemo grEmpty (by decide) rfl

/-- C3: a user built from a lookup that returns no record (by uid, by name, or
from a null pointer) is invalid and its loginName, homeDir and shell accessors
all return the empty string. -/
theorem invalid_user_accessors (sys : System) (u : Nat) (name : String)
    (hu : sys.getpwuid u = none) (hn : sys.getpwnam name = none) :
    (KUser.isValid (KUser.fromUid sys u) = false
      ∧ KUser.loginName (KUser.fromUid sys u) = ""
      ∧ KUser.homeDir (KUser.fromUid sys u) = ""
      ∧ KUser.shell (KUser.fromUid sys u) = "")
    ∧ (KUser.isValid (KUser.fromName sys name) = false
      ∧ KUser.loginName (KUser.fromName sys name) = ""
      ∧ KUser.homeDir (KUser.fromName sys name) = ""
      ∧ KUser.shell (KUser.fromName sys name) = "")
    ∧ (KUser.isValid (KUser.fromCharPtr sys none) = false
      ∧ KUser.loginName (KUser.fromCharPtr sys none) = ""
      ∧ KUser.homeDir (KUser.fromCharPtr sys none) = ""
      ∧ KUser.shell (KUser.fromCharPtr sys none) = "") := by
  simp [KUser.fromUid, KUser.fromName, KUser.fromCharPtr, KUser.fromPasswdPtr, hu, hn,
    fillPasswd, defaultUser, KUser.isValid, KUser.loginName, KUser.homeDir, KUser.shell]

/-- Witness for C3: in sysDemo, uid 7 and the name ghost have no record. -/
theorem invalid_user_accessors_witness :
    (KUser.isValid (KUser.fromUid sysDemo 7) = false
      ∧ KUser.loginName (KUser.fromUid sysDemo 7) = ""
      ∧ KUser.homeDir (KUser.fromUid sysDemo 7) = ""
      ∧ KUser.shell (KUser.fromUid sysDemo 7) = "")
    ∧ (KUser.isValid (KUser.fromName sysDemo "ghost") = false
      ∧ KUser.loginName (KUser.fromName sysDemo "ghost") = ""
      ∧ KUser.homeDir (KUser.fromName sysDemo "ghost") = ""
      ∧ KUser.shell (KUser.fromName sysDemo "ghost") = "")
    ∧ (KUser.isValid (KUser.fromCharPtr sysDemo none) = false
      ∧ KUser.loginName (KUser.fromCharPtr sysDemo none) = ""
      ∧ KUser.homeDir (KUser.fromCharPtr sysDemo none) = ""
      ∧ KUser.shell (KUser.fromCharPtr sysDemo none) = "") :=
  invalid_user_accessors sysDemo 7 "ghost" (by decide) (by decide)

/-- C4: KUserId::fromName and KGroupId::fromName return the invalid default id
and emit a warning when the name does not resolve (an empty or malformed name
is just a name with no record), and return the valid id of the record with no
warning when it does resolve. -/
theorem fromname_lookup (sys : System) (uname gname : String) :
    (sys.getpwnam uname = none →
      (KUserId.fromName sys uname).1 = KUserId.invalid
      ∧ KUserId.isValid (KUserId.fromName sys uname).1 = false
      ∧ (KUserId.fromName sys uname).2 = true)
    ∧ (∀ p, sys.getpwnam uname = some p → p.pw_uid ≠ UIDT_M1 →
      (KUserId.fromName sys uname).1 = ⟨p.pw_uid⟩
      ∧ KUserId.isValid (KUserId.fromName sys uname).1 = true
      ∧ (KUserId.fromName sys uname).2 = false)
    ∧ (sys.getgrnam gname = none →
      (KGroupId.fromName sys gname).1 = KGroupId.invalid
      ∧ KGroupId.isValid (KGroupId.fromName sys gname).1 = false
      ∧ (KGroupId.fromName sys gname).2 = true)
    ∧ (∀ g, sys.getgrnam gname = some g → g.gr_gid ≠ GIDT_M1 →
      (KGroupId.fromName sys gname).1 = ⟨g.gr_gid⟩
      ∧ KGroupId.isValid (KGroupId.fromName sys gname).1 = true
      ∧ (KGroupId.fromName sys gname).2 = false) := by
  refine ⟨fun h => ?_, fun p hp hval => ?_, fun h => ?_, fun g hg hval => ?_⟩
  · simp [KUserId.fromName, h, KUserId.isValid, KUserId.invalid]
  · simp [KUserId.fromName, hp, KUserId.isValid, hval]
  · simp [KGroupId.fromName, h, KGroupId.isValid, KGroupId.invalid]
  · simp [KGroupId.fromName, hg, KGroupId.isValid, hval]

/-- Witness for C4: in sysDemo the name ghost resolves to no account, while
staff resolves to gid 50. -/
theorem fromname_lookup_witness :
    ((KUserId.fromName sysDemo "ghost").1 = KUserId.invalid
      ∧ KUserId.isValid (KUserId.fromName sysDemo "ghost").1 = false
      ∧ (KUserId.fromName sysDemo "ghost").2 = true)
    ∧ ((KGroupId.fromName sysDemo "staff").1 = ⟨50⟩
      ∧ KGroupId.isValid (KGroupId.fromName sysDemo "staff").1 = true
      ∧ (KGroupId.fromName sysDemo "staff").2 = false) :=
  ⟨(fromname_lookup sysDemo "ghost" "staff").1 (by decide),
   (fromname_lookup sysDemo "ghost" "staff").2.2.2 grStaff (by decide) (by decide)⟩

/-- Entries below index 4 are determined by the first four entries of a list:
lists agreeing on take 4 have equal getD at 0..3. -/
lemma getD_eq_of_take4_eq {l1 l2 : List String} (h : l1.take 4 = l2.take 4)
    {i : Nat} (hi : i < 4) : l1.getD i "" = l2.getD i "" := by
  have e1 : (l1.take 4).getD i "" = l1.getD i "" := by
    simp [List.getD, List.getElem?_take, hi]
  have e2 : (l2.take 4).getD i "" = l2.getD i "" := by
    simp [List.getD, List.getElem?_take, hi]
  rw [← e1, ← e2, h]

/-- C5: when a user is filled from a record, the gecos field is split on
commas and padded to at least four segments; the first four segments become
FullName, RoomNumber, WorkPhone and HomePhone in that order; segments past the
fourth are ignored (the property map depends only on the first four padded
segments). -/
theorem gecos_properties (sys : System) (p : Passwd) :
    4 ≤ (gecosSegments p.pw_gecos).length
    ∧ KUser.userProperty (KUser.fromPasswdPtr sys (some p)) UserProperty.FullName
        = some ((gecosSegments p.pw_gecos).getD 0 "")
    ∧ KUser.userProperty (KUser.fromPasswdPtr sys (some p)) UserProperty.RoomNumber
        = some ((gecosSegments p.pw_gecos).getD 1 "")
    ∧ KUser.userProperty (KUser.fromPasswdPtr sys (some p)) UserProperty.WorkPhone
        = some ((gecosSegments p.pw_gecos).getD 2 "")
    ∧ KUser.userProperty (KUser.fromPasswdPtr sys (some p)) UserProperty.HomePhone
        = some ((gecosSegments p.pw_gecos).getD 3 "")
    ∧ (∀ q : Passwd,
        (gecosSegments q.pw_gecos).take 4 = (gecosSegments p.pw_gecos).take 4 →
        (KUser.fromPasswdPtr sys (some q)).properties
          = (KUser.fromPasswdPtr sys (some p)).properties) := by
  refine ⟨?_, rfl, rfl, rfl, rfl, ?_⟩
  · simp only [gecosSegments, List.length_append, List.length_replicate]
    omega
  · intro q hq
    funext pr
    cases pr <;>
      simp only [KUser.fromPasswdPtr, fillPasswd, Option.some.injEq] <;>
      exact getD_eq_of_take4_eq hq (by norm_num)

/-- A record agreeing with pwAlice on the first four gecos segments but not on
the fifth. -/
def pwAliceVar : Passwd :=
  { pw_name := "alice2"
    pw_uid := 1001
    pw_gid := 1001
    pw_gecos := "Alice A,12,555,777,other tail,and more"
    pw_dir := "/home/alice2"
    pw_shell := "/bin/zsh" }

/-- Witness for C5: pwAlice and pwAliceVar differ only past the fourth gecos
segment, so they receive identical property maps. -/
theorem gecos_properties_witness :
    (KUser.fromPasswdPtr sysDemo (some pwAlice)).properties
      = (KUser.fromPasswdPtr sysDemo (some pwAliceVar)).properties :=
  (gecos_properties sysDemo pwAliceVar).2.2.2.2.2 pwAlice (by decide)

/-- C6: the home directory of a user filled from a record is the HOME
environment value when the record uid equals both the real and the effective
uid of the process and that value is non-empty; in every other case it is the
pw_dir field of the record. -/
theorem homedir_resolution (sys : System) (p : Passwd) :
    KUser.homeDir (KUser.fromPasswdPtr sys (some p)) =
      if p.pw_uid = sys.getuid ∧ p.pw_uid = sys.geteuid ∧ sys.env "HOME" ≠ ""
      then sys.env "HOME" else p.pw_dir := by
  simp only [KUser.fromPasswdPtr, fillPasswd, KUser.homeDir, defaultUser]
  by_cases h1 : p.pw_uid = sys.getuid ∧ p.pw_uid = sys.geteuid
  · rw [if_pos h1]
    by_cases h2 : sys.env "HOME" = ""
    · rw [if_pos h2, if_neg (fun hc => hc.2.2 h2)]
    · rw [if_neg h2, if_pos ⟨h1.1, h1.2, h2⟩]
  · rw [if_neg h1, if_pos rfl, if_neg (fun hc => h1 ⟨hc.1, hc.2.1⟩)]

/-- C7: in real-user mode, the LOGNAME account is used when its uid is the
real uid; otherwise the USER account is tried and used when its uid is the
real uid; otherwise the user is filled from getpwuid of the real uid. -/
theorem realmode_resolution (sys : System) :
    ((KUser.fromCharPtr sys (some (sys.env "LOGNAME"))).uid = sys.getuid →
      KUser.fromMode sys UIDMode.UseRealUserID
        = KUser.fromCharPtr sys (some (sys.env "LOGNAME")))
    ∧ ((KUser.fromCharPtr sys (some (sys.env "LOGNAME"))).uid ≠ sys.getuid →
      (KUser.fromCharPtr sys (some (sys.env "USER"))).uid = sys.getuid →
      KUser.fromMode sys UIDMode.UseRealUserID
        = KUser.fromCharPtr sys (some (sys.env "USER")))
    ∧ ((KUser.fromCharPtr sys (some (sys.env "LOGNAME"))).uid ≠ sys.getuid →
      (KUser.fromCharPtr sys (some (sys.env "USER"))).uid ≠ sys.getuid →
      KUser.fromMode sys UIDMode.UseRealUserID
        = KUser.fromPasswdPtr sys (sys.getpwuid sys.getuid)) := by
  refine ⟨fun h1 => ?_, fun h1 h2 => ?_, fun h1 h2 => ?_⟩
  · simp [KUser.fromMode, h1]
  · simp [KUser.fromMode, h1, h2]
  · simp [KUser.fromMode, h1, h2]

/-- Witness for C7: in sysDemo, LOGNAME is alice whose uid 1000 is the real
uid, so real-user mode resolves to the LOGNAME account. -/
theorem realmode_resolution_witness :
    KUser.fromMode sysDemo UIDMode.UseRealUserID
      = KUser.fromCharPtr sysDemo (some (sysDemo.env "LOGNAME")) :=
  (realmode_resolution sysDemo).1 (by decide)

/-- C8: KUserGroup::users(maxCount) returns the first maxCount stored members
(a prefix, List.take, hence never more than maxCount entries), and with the
unbounded default UINT_MAX it returns the entire stored member list.  The
stored list length is below 2^31, the QList size bound. -/
theorem users_maxcount (g : KUserGroupPrivate) (maxCount : Nat)
    (hlen : g.users.length < UINT_HALF) :
    KUserGroup.users g maxCount = g.users.take maxCount
    ∧ (KUserGroup.users g maxCount).length ≤ maxCount
    ∧ KUserGroup.users g UINT_MAX = g.users := by
  have h1 : KUserGroup.users g maxCount = g.users.take maxCount := by
    unfold KUserGroup.users
    split_ifs with h
    · rw [List.take_of_length_le (le_trans hlen.le h)]
    · rfl
  refine ⟨h1, ?_, ?_⟩
  · rw [h1]
    simp [List.length_take]
  · unfold KUserGroup.users
    rw [if_pos (by norm_num [UINT_HALF, UINT_MAX])]

/-- Witness for C8 at the concrete two-member group gX with maxCount 1. -/
theorem users_maxcount_witness :
    KUserGroup.users gX 1 = gX.users.take 1
    ∧ (KUserGroup.users gX 1).length ≤ 1
    ∧ KUserGroup.users gX UINT_MAX = gX.users :=
  users_maxcount gX 1 (by decide)

/-- The result list of the enumeration loop: the first maxCount database
records in iteration order, each mapped through the resolving function. -/
lemma enumLoop_fst {α β : Type} (f : α → β) (m : Nat) (l : List α) :
    (enumLoop f m l).1 = (l.take m).map f := by
  induction m generalizing l with
  | zero => simp [enumLoop]
  | succ n ih =>
    cases l with
    | nil => simp [enumLoop]
    | cons a rest => simp [enumLoop, ih]

/-- readCount on one more record and one more unit of budget. -/
lemma readCount_succ (n k : Nat) : readCount (n + 1) (k + 1) = readCount n k + 1 := by
  unfold readCount
  split_ifs with h1 h2 h2 <;> omega

/-- The cursor reads of the enumeration loop: readCount m (length) calls. -/
lemma enumLoop_snd {α β : Type} (f : α → β) (m : Nat) (l : List α) :
    (enumLoop f m l).2 = List.replicate (readCount m l.length) DbOp.readEnt := by
  induction m generalizing l with
  | zero => simp [enumLoop, readCount]
  | succ n ih =>
    cases l with
    | nil => simp [enumLoop, readCount]
    | cons a rest =>
      simp only [enumLoop, ih, List.length_cons, readCount_succ, List.replicate_succ]

/-- C9: allUsers(maxCount) returns the first min(maxCount, N) passwd records
in database iteration order, each resolved through fillPasswd; allGroups
likewise through fillGroup, and every returned group carries its fully
expanded member list (one getpwnam-resolved KUser per gr_mem name); both
cursor traces open the database first and close it last, with only reads in
between. -/
theorem enumeration_behavior (sys : System) (maxCount : Nat) :
    (KUser.allUsers sys maxCount).1
      = (sys.pwents.take maxCount).map (fun p => KUser.fromPasswdPtr sys (some p))
    ∧ (KUserGroup.allGroups sys maxCount).1
      = (sys.grents.take maxCount).map (fun g => KUserGroup.fromGrPtr sys (some g))
    ∧ (∀ gr ∈ (KUserGroup.allGroups sys maxCount).1, ∃ g ∈ sys.grents,
        gr = KUserGroup.fromGrPtr sys (some g)
        ∧ gr.users = g.gr_mem.map (fun n => KUser.fromName sys n))
    ∧ (KUser.allUsers sys maxCount).2
      = DbOp.openDb ::
          (List.replicate (readCount maxCount sys.pwents.length) DbOp.readEnt
            ++ [DbOp.closeDb])
    ∧ (KUserGroup.allGroups sys maxCount).2
      = DbOp.openDb ::
          (List.replicate (readCount maxCount sys.grents.length) DbOp.readEnt
            ++ [DbOp.closeDb]) := by
  refine ⟨?_, ?_, ?_, ?_, ?_⟩
  · simp [KUser.allUsers, enumLoop_fst]
  · simp [KUserGroup.allGroups, enumLoop_fst]
  · intro gr hgr
    simp only [KUserGroup.allGroups, enumLoop_fst, List.mem_map] at hgr
    obtain ⟨g, hg, rfl⟩ := hgr
    exact ⟨g, List.mem_of_mem_take hg,
      rfl, by simp [KUserGroup.fromGrPtr, fillGroup, defaultGroup, KUser.fromName]⟩
  · simp [KUser.allUsers, enumLoop_snd]
  · simp [KUserGroup.allGroups, enumLoop_snd]

/-- Witness for C9: the enumeration of sysDemo (two accounts, two groups)
with maxCount 1. -/
theorem enumeration_behavior_witness :
    (KUser.allUsers sysDemo 1).1
      = (sysDemo.pwents.take 1).map (fun p => KUser.fromPasswdPtr sysDemo (some p))
    ∧ (KUserGroup.allGroups sysDemo 1).1
      = (sysDemo.grents.take 1).map (fun g => KUserGroup.fromGrPtr sysDemo (some g))
    ∧ (∀ gr ∈ (KUserGroup.allGroups sysDemo 1).1, ∃ g ∈ sysDemo.grents,
        gr = KUserGroup.fromGrPtr sysDemo (some g)
        ∧ gr.users = g.gr_mem.map (fun n => KUser.fromName sysDemo n))
    ∧ (KUser.allUsers sysDemo 1).2
      = DbOp.openDb ::
          (List.replicate (readCount 1 sysDemo.pwents.length) DbOp.readEnt
            ++ [DbOp.closeDb])
    ∧ (KUserGroup.allGroups sysDemo 1).2
      = DbOp.openDb ::
          (List.replicate (readCount 1 sysDemo.grents.length) DbOp.readEnt
            ++ [DbOp.closeDb]) :=
  enumeration_behavior sysDemo 1

/-- The userNames loop visits the first min(size, maxCount) members and maps
loginName over them. -/
lemma userNamesGo_eq (us : List KUserPrivate) (n : Nat) :
    userNamesGo us n = (us.take n).map KUser.loginName := by
  induction us generalizing n with
  | nil => cases n <;> simp [userNamesGo]
  | cons u rest ih => cases n <;> simp [userNamesGo, ih]

/-- C10: for every maxCount in the unsigned range, including the values at and
above 2^31 where users() takes its signed-cast unbounded branch while
userNames() keeps its unsigned loop bound, userNames equals loginName mapped
over users. -/
theorem usernames_users_agree (g : KUserGroupPrivate) (maxCount : Nat)
    (hlen : g.users.length < UINT_HALF) :
    KUserGroup.userNames g maxCount
      = (KUserGroup.users g maxCount).map KUser.loginName := by
  unfold KUserGroup.userNames KUserGroup.users
  rw [userNamesGo_eq]
  split_ifs with h
  · rw [List.take_of_length_le (le_trans hlen.le h)]
  · rfl

/-- Witness for C10 at gX with the above-INT_MAX bound UINT_MAX. -/
theorem usernames_users_agree_witness :
    KUserGroup.userNames gX UINT_MAX
      = (KUserGroup.users gX UINT_MAX).map KUser.loginName :=
  usernames_users_agree gX UINT_MAX (by decide)

end KUserModel
